import Mathlib

/-!
Shallow embedding of the tourism-data aggregation layer of this repository
(coordinate resolver, response normalizer, request executor retry/envelope
logic, entity fetch pagination, detail aggregation, statistics aggregation),
together with theorems settling the specification claims.

JavaScript machine numbers are modelled as exact rationals (`ℚ`); `NaN` is
modelled by `Option`.  All errors thrown by the TypeScript code are modelled
by `Except` values.
-/

namespace MapTest

/-- Decidable equality for `Except` values (used to evaluate the models on
concrete inputs). -/
instance {ε α : Type} [DecidableEq ε] [DecidableEq α] : DecidableEq (Except ε α)
  | .ok a, .ok b => decidable_of_iff (a = b) (by simp)
  | .error a, .error b => decidable_of_iff (a = b) (by simp)
  | .ok _, .error _ => isFalse (by simp)
  | .error _, .ok _ => isFalse (by simp)

/-! ## CoordinateResolver: `src/lib/utils/coordinate.ts` -/

/-- Model of JavaScript `parseFloat` restricted to finite decimal literals:
skips leading whitespace, consumes an optional sign, digits with an optional
fraction part and an optional integer exponent, and ignores any trailing
garbage (prefix parsing).  `none` models `NaN`.  The special literal
`Infinity` is outside the model (none of the claims involves it). -/
def digChar (c : Char) : Bool := '0' ≤ c && c ≤ '9'

/-- Numeric value of a digit character. -/
def digVal (c : Char) : Nat := c.toNat - 48

/-- Split a character list into its maximal leading run of digits and the
rest. -/
def spanDigits : List Char → List Char × List Char
  | [] => ([], [])
  | c :: cs =>
    if digChar c then
      let p := spanDigits cs
      (c :: p.1, p.2)
    else ([], c :: cs)

/-- Natural number denoted by a digit string. -/
def natOfDigits (ds : List Char) : Nat :=
  ds.foldl (fun a c => 10 * a + digVal c) 0

/-- Consume an optional sign; returns whether the literal is negated. -/
def parseSign : List Char → Bool × List Char
  | '+' :: cs => (false, cs)
  | '-' :: cs => (true, cs)
  | cs => (false, cs)

/-- Consume an optional exponent part (`e`/`E`, sign, digits); if no digits
follow the marker the exponent is not consumed, as in JavaScript. -/
def parseExponent (cs : List Char) : Int :=
  match cs with
  | 'e' :: rest =>
    let p := parseSign rest
    let q := spanDigits p.2
    if q.1.isEmpty then 0
    else if p.1 then -(natOfDigits q.1 : Int) else (natOfDigits q.1 : Int)
  | 'E' :: rest =>
    let p := parseSign rest
    let q := spanDigits p.2
    if q.1.isEmpty then 0
    else if p.1 then -(natOfDigits q.1 : Int) else (natOfDigits q.1 : Int)
  | _ => 0

/-- Model of JavaScript `String.prototype.trim`: strip whitespace from both
ends (structurally recursive, unlike `String.trim`). -/
def jsTrim (s : String) : String :=
  ⟨((s.data.dropWhile Char.isWhitespace).reverse.dropWhile
      Char.isWhitespace).reverse⟩

/-- Exact representation of a parsed decimal literal as `m / 10 ^ k`
(kernel-reducible; avoids `ℚ` normalisation during parsing). -/
def parseFloatRep (s : String) : Option (Int × Nat) :=
  let cs := s.data.dropWhile Char.isWhitespace
  let sp := parseSign cs
  let ip := spanDigits sp.2
  let fp :=
    match ip.2 with
    | '.' :: rest => spanDigits rest
    | _ => ([], ip.2)
  if ip.1.isEmpty && fp.1.isEmpty then none
  else
    let e := parseExponent fp.2
    let mag : Nat := natOfDigits ip.1 * 10 ^ fp.1.length + natOfDigits fp.1
    let m0 : Int := if sp.1 then -(mag : Int) else (mag : Int)
    if 0 ≤ e then some (m0 * 10 ^ e.toNat, fp.1.length)
    else some (m0, fp.1.length + (-e).toNat)

/-- The rational number denoted by a `parseFloatRep` result. -/
def repVal (p : Int × Nat) : ℚ := (p.1 : ℚ) / (10 : ℚ) ^ p.2

/-- Model of JavaScript `parseFloat` (see `digChar` doc comment). -/
def parseFloat (s : String) : Option ℚ :=
  (parseFloatRep s).map repVal

/-- A resolved WGS84 coordinate, `convertKATECToWGS84`'s success value. -/
structure Coord where
  lat : ℚ
  lng : ℚ
  deriving DecidableEq, Repr

/-- The two `throw new Error(...)` sites of `convertKATECToWGS84`
(`"Invalid coordinates: ..."` for a NaN parse and
`"Invalid coordinates (zero): ..."` for a zero value); both are
`ValidationError`s in the specification's taxonomy. -/
inductive CoordError where
  | invalidNaN
  | invalidZero
  deriving DecidableEq, Repr

/-- `mapxStr.includes(".") || mapxStr.includes(",")` from the source. -/
def hasDecimalSep (s : String) : Bool :=
  s.data.contains '.' || s.data.contains ','

/-- Model of `convertKATECToWGS84` (`src/lib/utils/coordinate.ts`): trim,
parse both inputs, fail on NaN or zero, then apply the format heuristic
(decimal separator present → use as-is; magnitude ≥ 1000 → divide both by
10,000,000; otherwise use as-is).  The final Korean bounding-box check in the
source only logs a warning and never rejects, so it does not appear in the
result.  The diagnostic global counter and logging are omitted. -/
def convertKATECToWGS84 (mapx mapy : String) : Except CoordError Coord :=
  let mapxStr := jsTrim mapx
  let mapyStr := jsTrim mapy
  match parseFloat mapxStr, parseFloat mapyStr with
  | some mapxNum, some mapyNum =>
    if mapxNum = 0 ∨ mapyNum = 0 then .error .invalidZero
    else
      let mapxHasDecimal := hasDecimalSep mapxStr
      let mapyHasDecimal := hasDecimalSep mapyStr
      if mapxHasDecimal || mapyHasDecimal then
        .ok ⟨mapyNum, mapxNum⟩
      else if 1000 ≤ |mapxNum| ∨ 1000 ≤ |mapyNum| then
        .ok ⟨mapyNum / 10000000, mapxNum / 10000000⟩
      else
        .ok ⟨mapyNum, mapxNum⟩
  | _, _ => .error .invalidNaN

/-- Model of `isValidKoreanCoordinate` (`src/lib/utils/coordinate.ts`). -/
def isValidKoreanCoordinate (lat lng : ℚ) : Bool :=
  33 ≤ lat && lat ≤ 43 && 124 ≤ lng && lng ≤ 132

/-! ## ResponseNormalizer: `normalizeItems` (tour-api, src/unnamed/part_009) -/

/-- The JavaScript values reachable by `normalizeItems`'s parameter
`items : T | T[] | { item: T | T[] } | null | undefined`:
`nullish` covers the falsy inputs (`null`/`undefined`), `wrapperNull` /
`wrapperSingle` / `wrapperArr` cover an `{ item: ... }` wrapper object whose
`item` field is nullish, a single value, or an array, `arr` an array and
`single` any other (truthy, non-array, no `item` key) value. -/
inductive ItemsVal (α : Type) where
  | nullish
  | wrapperNull
  | wrapperSingle (a : α)
  | wrapperArr (xs : List α)
  | arr (xs : List α)
  | single (a : α)
  deriving DecidableEq, Repr

/-- Model of `normalizeItems` (src/unnamed/part_009, also
`src/lib/api/tour-api.ts`): falsy → `[]`; `{item: ...}` wrapper → unwrap
(nullish item → `[]`, single item → one-element array, array item → itself);
array → itself; anything else → one-element array. -/
def normalizeItems {α : Type} : ItemsVal α → List α
  | .nullish => []
  | .wrapperNull => []
  | .wrapperSingle a => [a]
  | .wrapperArr xs => xs
  | .arr xs => xs
  | .single a => [a]

/-! ## RequestExecutor: error classification, retry, envelope validation
(src/unnamed/part_009) -/

/-- Model of the errors flowing through `retryRequest`: `tourApi` is a
`TourApiError` (message, optional HTTP status code, optional endpoint);
`jsError` is any other JavaScript `Error` (network failures, timeouts
surface this way before being wrapped). -/
inductive UpErr where
  | tourApi (message : String) (statusCode : Option Nat) (endpoint : Option String)
  | jsError (message : String)
  deriving DecidableEq, Repr

/-- Model of `isRetryableError` (src/unnamed/part_009): a `TourApiError`
with status 429 or a 5xx status is retryable, any other `TourApiError` is
not (a missing or zero status code is falsy), and every non-`TourApiError`
is retryable. -/
def isRetryableError : UpErr → Bool
  | .tourApi _ sc _ =>
    match sc with
    | some c => c == 429 || (decide (c ≠ 0) && decide (500 ≤ c))
    | none => false
  | .jsError _ => true

/-- Model of `handleApiError` (src/unnamed/part_009): a `TourApiError` is
returned unchanged; any other `Error` is wrapped with a generic message. -/
def handleApiError : UpErr → UpErr
  | .tourApi m sc ep => .tourApi m sc ep
  | .jsError m => .tourApi ("API 호출 중 에러가 발생했습니다: " ++ m) none none

/-- `MAX_RETRIES` from the source. -/
def MAX_RETRIES : Nat := 3

/-- `RETRY_DELAYS` from the source. -/
def RETRY_DELAYS : List Nat := [1000, 2000, 4000]

/-- The rate-limit backoff schedule hard-coded in `retryRequest`. -/
def rateLimitDelays : List Nat := [5000, 10000, 15000]

/-- JavaScript `xs[i] || xs[xs.length - 1]`: an out-of-range index yields
`undefined` (falsy) and `0` is falsy too, so both fall back to the last
element. -/
def jsIndexOrLast (xs : List Nat) (i : Nat) : Nat :=
  let v := xs.getD i 0
  if v ≠ 0 then v else xs.getD (xs.length - 1) 0

/-- The `error instanceof TourApiError && error.statusCode === 429` test in
`retryRequest`. -/
def isRateLimited : UpErr → Bool
  | .tourApi _ (some 429) _ => true
  | _ => false

/-- The backoff delay `retryRequest` inserts after failing attempt
`attempt` with error `e`: the rate-limit schedule for a 429, otherwise the
supplied `delays` schedule. -/
def delayFor (e : UpErr) (attempt : Nat) (delays : List Nat) : Nat :=
  if isRateLimited e then jsIndexOrLast rateLimitDelays attempt
  else jsIndexOrLast delays attempt

/-- Observable outcome of a `retryRequest` run: final result, number of
attempts made, and the backoff delays inserted between attempts, in order. -/
structure RetryTrace (α : Type) where
  result : Except UpErr α
  attempts : Nat
  waits : List Nat
  deriving DecidableEq, Repr

/-- One step of `retryRequest`'s loop.  `fn n` is the outcome of attempt
number `n` (attempts are numbered from 0); `remaining` is
`maxRetries - attempt`, the number of retries still allowed.  On a
non-retryable error the loop throws `handleApiError e` immediately; when no
retry remains it breaks and throws `handleApiError lastError`; otherwise it
waits `delayFor e attempt delays` and retries. -/
def retryAux {α : Type} (fn : Nat → Except UpErr α) (delays : List Nat)
    (attempt : Nat) : Nat → RetryTrace α
  | 0 =>
    match fn attempt with
    | .ok a => ⟨.ok a, 1, []⟩
    | .error e => ⟨.error (handleApiError e), 1, []⟩
  | remaining + 1 =>
    match fn attempt with
    | .ok a => ⟨.ok a, 1, []⟩
    | .error e =>
      if isRetryableError e then
        let t := retryAux fn delays (attempt + 1) remaining
        ⟨t.result, t.attempts + 1, delayFor e attempt delays :: t.waits⟩
      else ⟨.error (handleApiError e), 1, []⟩

/-- Model of `retryRequest` (src/unnamed/part_009): run `fn`, retrying a
retryable failure up to `maxRetries` times with backoff. -/
def retryRequest {α : Type} (fn : Nat → Except UpErr α) (maxRetries : Nat)
    (delays : List Nat) : RetryTrace α :=
  retryAux fn delays 0 maxRetries

/-- JavaScript `a || b` on an optional string, where the empty string is
falsy. -/
def jsOrStr (o : Option String) (d : String) : String :=
  match o with
  | some s => if s = "" then d else s
  | none => d

/-- JavaScript `a || b` on an optional number, where `0` is falsy. -/
def jsOrNat (o : Option Nat) (d : Nat) : Nat :=
  match o with
  | some n => if n = 0 then d else n
  | none => d

/-- The upstream envelope's `response.header` object; both fields may be
absent. -/
structure UpHeader where
  resultCode : Option String
  resultMsg : Option String
  deriving DecidableEq, Repr

/-- The upstream envelope's `response.body` object as consumed by the list
fetchers. -/
structure UpBody (α : Type) where
  items : ItemsVal α
  numOfRows : Option Nat
  pageNo : Option Nat
  totalCount : Option Nat
  deriving DecidableEq, Repr

/-- The upstream envelope's `response` object; `header` and `body` may each
be absent. -/
structure UpResponse (α : Type) where
  header : Option UpHeader
  body : Option (UpBody α)
  deriving DecidableEq, Repr

/-- The `response` field of the parsed JSON: the key may be missing
entirely, present with a nullish value, or present with an object
(`fetchApiResponse` distinguishes `"response" in data` from
`!data.response`). -/
inductive ResponseField (α : Type) where
  | absent
  | null
  | present (r : UpResponse α)
  deriving DecidableEq, Repr

/-- The parsed JSON of an HTTP-200 upstream reply: optional top-level
`resultCode`/`resultMsg` (the provider's flat error shape) and the
`response` envelope field. -/
structure UpData (α : Type) where
  topResultCode : Option String
  topResultMsg : Option String
  responseField : ResponseField α
  deriving DecidableEq, Repr

/-- The `data.response?.header?.resultCode` access. -/
def UpData.resultCode {α : Type} (d : UpData α) : Option String :=
  match d.responseField with
  | .present r => r.header.bind (·.resultCode)
  | _ => none

/-- The `data.response?.header?.resultMsg` access. -/
def UpData.resultMsg {α : Type} (d : UpData α) : Option String :=
  match d.responseField with
  | .present r => r.header.bind (·.resultMsg)
  | _ => none

/-- Models `!("response" in data)`: the `response` key is missing. -/
def ResponseField.isAbsent {α : Type} : ResponseField α → Bool
  | .absent => true
  | _ => false

/-- Model of the envelope-validation section of `fetchApiResponse`
(src/unnamed/part_009, one attempt, after a 2xx HTTP response has been
parsed): a top-level `resultCode` with no `response` key is the provider's
flat error shape and throws with its message and code; a missing or nullish
`response` throws the structure error; a truthy `resultCode` other than
`"0000"` throws with the header's message and code; otherwise (including a
missing `resultCode`) the data is returned. -/
def validateEnvelope {α : Type} (endpoint : String) (data : UpData α) :
    Except UpErr (UpData α) :=
  if data.topResultCode.isSome && data.responseField.isAbsent then
    .error (.tourApi
      ("API 응답 에러: " ++ jsOrStr data.topResultMsg "알 수 없는 에러" ++
        " (코드: " ++ data.topResultCode.getD "" ++ ")")
      none (some endpoint))
  else
    match data.responseField with
    | .present _ =>
      match data.resultCode with
      | some code =>
        if code ≠ "" ∧ code ≠ "0000" then
          .error (.tourApi
            ("API 응답 에러: " ++ jsOrStr data.resultMsg "알 수 없는 에러" ++
              " (코드: " ++ code ++ ")")
            none (some endpoint))
        else .ok data
      | none => .ok data
    | _ =>
      .error (.tourApi "API 응답 구조가 올바르지 않습니다." none (some endpoint))

/-! ## EntityFetchers: pagination (`getAreaBasedList`, `searchKeyword`,
src/unnamed/part_009) -/

/-- One record of a list/search response; only the fields the embedded
logic inspects are modelled (`contentid` is what the detail aggregator's
recommendation filter reads). -/
structure TourItem where
  contentid : String
  deriving DecidableEq, Repr

/-- The canonical paged list (`PagedResponse<TourItem>`). -/
structure PagedResponse (α : Type) where
  items : List α
  totalCount : Nat
  numOfRows : Nat
  pageNo : Nat
  totalPages : Nat
  deriving DecidableEq, Repr

/-- The `items.item` pre-unwrapping step of `getAreaBasedList`: if the raw
`items` value is a truthy non-array object with an `item` key, replace it
by its `item` field. -/
def preUnwrapItems {α : Type} : ItemsVal α → ItemsVal α
  | .wrapperNull => .nullish
  | .wrapperSingle a => .single a
  | .wrapperArr xs => .arr xs
  | v => v

/-- The pagination computation shared by `getAreaBasedList` and
`searchKeyword`: extract `totalCount`, `numOfRows` and `pageNo` with the
source's `||` fallback chains and derive `totalPages = ceil(totalCount /
numOfRows)`. -/
def buildPagedResponse {α : Type} (items : List α) (body : Option (UpBody α))
    (paramNumOfRows paramPageNo : Option Nat) : PagedResponse α :=
  let totalCount := (body.bind (·.totalCount)).getD 0
  let numOfRows := jsOrNat (body.bind (·.numOfRows)) (jsOrNat paramNumOfRows 12)
  let pageNo := jsOrNat (body.bind (·.pageNo)) (jsOrNat paramPageNo 1)
  ⟨items, totalCount, numOfRows, pageNo,
    (⌈(totalCount : ℚ) / (numOfRows : ℚ)⌉).toNat⟩

/-- The parameters of `getAreaBasedList` that matter to the claims. -/
structure AreaBasedParams where
  areaCode : String
  contentTypeId : String
  numOfRows : Option Nat
  pageNo : Option Nat
  deriving DecidableEq, Repr

/-- Model of `getAreaBasedList` (src/unnamed/part_009) given the body of an
already-validated upstream envelope: validate the required parameters,
pre-unwrap an `items.item` wrapper, normalize the items, and attach the
pagination fields. -/
def getAreaBasedList (params : AreaBasedParams)
    (body : Option (UpBody TourItem)) : Except UpErr (PagedResponse TourItem) :=
  if params.areaCode = "" ∨ params.contentTypeId = "" then
    .error (.tourApi "areaCode와 contentTypeId는 필수 파라미터입니다." none
      (some "/areaBasedList2"))
  else
    let rawItems := preUnwrapItems ((body.map (·.items)).getD .nullish)
    let items := normalizeItems rawItems
    .ok (buildPagedResponse items body params.numOfRows params.pageNo)

/-- The parameters of `searchKeyword` that matter to the claims. -/
structure SearchParams where
  keyword : String
  numOfRows : Option Nat
  pageNo : Option Nat
  deriving DecidableEq, Repr

/-- Model of `searchKeyword` (src/unnamed/part_009) given the body of an
already-validated upstream envelope: reject a blank keyword, normalize the
items, and attach the pagination fields. -/
def searchKeyword (params : SearchParams) (body : Option (UpBody TourItem)) :
    Except UpErr (PagedResponse TourItem) :=
  if params.keyword = "" ∨ jsTrim params.keyword = "" then
    .error (.tourApi "keyword는 필수 파라미터입니다." none
      (some "/searchKeyword2"))
  else
    let items := normalizeItems ((body.map (·.items)).getD .nullish)
    .ok (buildPagedResponse items body params.numOfRows params.pageNo)

/-! ## DetailAggregator: `TourDetailData`
(src/app/user/[[...user]]/page.tsx) -/

/-- A list prefix test over characters (structural stand-in for
`String.startsWith`). -/
def startsWithL (p s : String) : Bool :=
  p.data.isPrefixOf s.data

/-- Character-wise lower-casing (structural stand-in for
`String.toLower`). -/
def toLowerL (s : String) : String :=
  ⟨s.data.map Char.toLower⟩

/-- Model of `isValidImageUrl` (`src/lib/utils/image.ts`, src/unnamed/part_009):
reject nullish or empty values, the literal strings "null" (in any case) and
"undefined", and anything that is not an HTTP(S) URL. -/
def isValidImageUrl : Option String → Bool
  | none => false
  | some u =>
    if u = "" then false
    else
      let trimmed := jsTrim u
      if trimmed = "" then false
      else if trimmed = "null" ∨ trimmed = "undefined" then false
      else if toLowerL trimmed = "null" then false
      else startsWithL "http://" trimmed || startsWithL "https://" trimmed

/-- The fields of a `TourDetail` record that the detail aggregator
inspects. -/
structure TourDetail where
  contentid : String
  contenttypeid : String
  areacode : Option String
  firstimage : Option String
  firstimage2 : Option String
  deriving DecidableEq, Repr

/-- An entry of the `detailImage2` response; only `originimgurl` is read by
the aggregator. -/
structure TourImage where
  originimgurl : Option String
  deriving DecidableEq, Repr

/-- Opaque model of a `detailIntro2` record (the aggregator only passes it
through). -/
structure TourIntro where
  contentid : String
  deriving DecidableEq, Repr

/-- Opaque model of a `detailPetTour2` record (the aggregator only passes
it through). -/
structure PetTourInfo where
  contentid : String
  deriving DecidableEq, Repr

/-- The outcomes of the five sub-fetches the detail aggregator runs:
`common` is `getDetailCommon` (required), `intro` is `getDetailIntro`,
`images` is `getDetailImage`, `pet` is `getDetailPetTour` (which already
maps "not found" to `null`), and `recs` is the `getAreaBasedList` call used
for recommendations. -/
structure DetailFetches where
  common : Except UpErr TourDetail
  intro : Except UpErr TourIntro
  images : Except UpErr (List TourImage)
  pet : Except UpErr (Option PetTourInfo)
  recs : Except UpErr (PagedResponse TourItem)

/-- The data assembled by `TourDetailData` (the props handed to
`TourDetailContent`). -/
structure AssembledDetail where
  detail : TourDetail
  intro : Option TourIntro
  images : List TourImage
  petInfo : Option PetTourInfo
  recommendations : List TourItem
  deriving DecidableEq, Repr

/-- The `detail.firstimage === "" → null` normalisation the aggregator
applies to the common-info record. -/
def normalizeDetailImages (d : TourDetail) : TourDetail :=
  let d1 := if d.firstimage = some "" then { d with firstimage := none } else d
  if d1.firstimage2 = some "" then { d1 with firstimage2 := none } else d1

/-- First half of the gallery fallback chain: if the common info lacks a
valid primary image and the gallery is nonempty, backfill `firstimage` from
the first valid gallery image. -/
def backfillPrimary (d : TourDetail) (images : List TourImage) : TourDetail :=
  if ¬ isValidImageUrl d.firstimage ∧ 0 < images.length then
    match images.find? (fun img => isValidImageUrl img.originimgurl) with
    | some img =>
      match img.originimgurl with
      | some url => if url ≠ "" then { d with firstimage := some url } else d
      | none => d
    | none => d
  else d

/-- Second half of the gallery fallback chain: if the common info lacks a
valid secondary image, backfill `firstimage2` from the first valid gallery
image after the first. -/
def backfillSecondary (d : TourDetail) (images : List TourImage) : TourDetail :=
  if ¬ isValidImageUrl d.firstimage2 ∧ 1 < images.length then
    match (images.drop 1).find? (fun img => isValidImageUrl img.originimgurl) with
    | some img =>
      match img.originimgurl with
      | some url => if url ≠ "" then { d with firstimage2 := some url } else d
      | none => d
    | none => d
  else d

/-- The gallery fallback chain applied by the aggregator. -/
def backfillImages (d : TourDetail) (images : List TourImage) : TourDetail :=
  backfillSecondary (backfillPrimary d images) images

/-- The common-info record after the optional image fetch: backfilled on
success, unchanged on failure. -/
def detailAfterImages (d : TourDetail)
    (images : Except UpErr (List TourImage)) : TourDetail :=
  match images with
  | .ok imgs => backfillImages d imgs
  | .error _ => d

/-- The gallery list handed to the page: the fetched list on success, empty
on failure. -/
def imagesResult (images : Except UpErr (List TourImage)) : List TourImage :=
  match images with
  | .ok imgs => imgs
  | .error _ => []

/-- Model of the `TourDetailData` aggregation
(src/app/user/[[...user]]/page.tsx): the required common-info fetch
propagates its failure as-is; each optional fetch is caught independently
and degrades to `none`/`[]`; the gallery backfills missing primary images;
recommendations exclude the current entity and are capped at 6. -/
def TourDetailData (f : DetailFetches) : Except UpErr AssembledDetail :=
  match f.common with
  | .error e => .error e
  | .ok d0 =>
    let d1 := normalizeDetailImages d0
    let intro := match f.intro with
      | .ok i => some i
      | .error _ => none
    let d2 := detailAfterImages d1 f.images
    let petInfo := match f.pet with
      | .ok p => p
      | .error _ => none
    let recommendations := match f.recs with
      | .ok pr => (pr.items.filter (fun t => t.contentid ≠ d2.contentid)).take 6
      | .error _ => []
    .ok ⟨d2, intro, imagesResult f.images, petInfo, recommendations⟩

/-! ## StatsAggregator: `stats-api` (src/unnamed/part_009) -/

/-- `Number(x.toFixed(2))`: round to two decimal places (half away from
zero coincides with `round` for the nonnegative values that occur here). -/
def roundTo2 (q : ℚ) : ℚ := (round (q * 100) : ℚ) / 100

/-- Model of `calculatePercentage` (src/unnamed/part_009): guard the
zero-total case, otherwise `count / total * 100` rounded to 2 decimals. -/
def calculatePercentage (count total : ℚ) : ℚ :=
  if total = 0 then 0 else roundTo2 (count / total * 100)

/-- `CONTENT_TYPE_IDS` from the source: the eight statistics partitions. -/
def CONTENT_TYPE_IDS : List String := ["12", "14", "15", "25", "28", "32", "38", "39"]

/-- `CONTENT_TYPE_NAMES` from `src/lib/types/stats.ts`. -/
def CONTENT_TYPE_NAMES : List (String × String) :=
  [("12", "관광지"), ("14", "문화시설"), ("15", "축제/행사"), ("25", "여행코스"),
   ("28", "레포츠"), ("32", "숙박"), ("38", "쇼핑"), ("39", "음식점")]

/-- Model of `getContentTypeName` (`src/lib/types/stats.ts`). -/
def getContentTypeName (contentTypeId : String) : String :=
  (CONTENT_TYPE_NAMES.lookup contentTypeId).getD "기타"

/-- A `RegionStats` entry (`src/lib/types/stats.ts`). -/
structure RegionStats where
  code : String
  name : String
  count : Nat
  deriving DecidableEq, Repr

/-- A `TypeStats` entry (`src/lib/types/stats.ts`); the percentage is an
exact rational. -/
structure TypeStats where
  contentTypeId : String
  name : String
  count : Nat
  percentage : ℚ
  deriving DecidableEq, Repr

/-- Stable insertion (descending by `count`): models the observable
behaviour of `Array.prototype.sort` with comparator `b.count - a.count`. -/
def insertByCountDesc {α : Type} (count : α → Nat) (x : α) :
    List α → List α
  | [] => [x]
  | y :: ys =>
    if count y < count x then x :: y :: ys
    else y :: insertByCountDesc count x ys

/-- Stable sort, descending by `count`. -/
def sortByCountDesc {α : Type} (count : α → Nat) : List α → List α
  | [] => []
  | x :: xs => insertByCountDesc count x (sortByCountDesc count xs)

/-- An `AreaCodeItem` (`src/lib/types/tour.ts`); the stats aggregator
guards against missing `code`/`name`. -/
structure AreaCodeItem where
  code : Option String
  name : Option String
  deriving DecidableEq, Repr

/-- JavaScript truthiness of an optional string. -/
def truthyStr : Option String → Bool
  | some s => s ≠ ""
  | none => false

/-- Model of `getRegionStatsInternal` (src/unnamed/part_009) given the
fetched area list and a per-region count oracle (`fetch code = none`
models a failed partition call, `some c` a successful one with
`totalCount || 0 = c`): keep areas with truthy code and name, drop failed
partitions and zero counts, sort descending by count. -/
def getRegionStatsInternal (areas : List AreaCodeItem)
    (fetch : String → Option Nat) : List RegionStats :=
  if areas.isEmpty then []
  else
    let candidates := areas.filter (fun a => truthyStr a.code && truthyStr a.name)
    let results := candidates.filterMap (fun a =>
      (fetch (a.code.getD "")).map (fun c =>
        RegionStats.mk (a.code.getD "") (a.name.getD "") c))
    let validStats := results.filter (fun s => 0 < s.count)
    sortByCountDesc RegionStats.count validStats

/-- Model of `getTypeStatsInternal` (src/unnamed/part_009) given a
per-content-type count oracle: drop failed partitions and zero counts,
total the remaining counts, attach percentages, sort descending by
count. -/
def getTypeStatsInternal (fetch : String → Option Nat) : List TypeStats :=
  let results := CONTENT_TYPE_IDS.filterMap (fun id =>
    (fetch id).map (fun c => (id, c)))
  let validStats := results.filter (fun p => 0 < p.2)
  if validStats.isEmpty then []
  else
    let totalCount : Nat := (validStats.map (·.2)).sum
    let typeStats : List TypeStats := validStats.map (fun p =>
      TypeStats.mk p.1 (getContentTypeName p.1) p.2
        (calculatePercentage (p.2 : ℚ) (totalCount : ℚ)))
    sortByCountDesc TypeStats.count typeStats

/-! ## Theorems -/

/-- C1: for every input pair that passes parsing (both values parse to
non-NaN, nonzero numbers), `convertKATECToWGS84` follows the format
heuristic exactly: a decimal separator (`.` or `,`) in either trimmed
string returns the parsed values as-is (lng from the first argument, lat
from the second); otherwise a magnitude ≥ 1000 on either side divides both
by 10,000,000; otherwise both are returned as-is.  The fixed-point pair
("1271234567", "371234567") resolves to lat 37.1234567, lng 127.1234567
(exactly, in `ℚ`), and the same values in decimal form are returned
unchanged. -/
theorem convertKATEC_heuristic :
    (∀ (x y : String) (a b : ℚ),
      parseFloat (jsTrim x) = some a → parseFloat (jsTrim y) = some b →
      a ≠ 0 → b ≠ 0 →
      ((hasDecimalSep (jsTrim x) || hasDecimalSep (jsTrim y)) = true →
        convertKATECToWGS84 x y = .ok ⟨b, a⟩) ∧
      ((hasDecimalSep (jsTrim x) || hasDecimalSep (jsTrim y)) = false →
        (1000 ≤ |a| ∨ 1000 ≤ |b|) →
        convertKATECToWGS84 x y = .ok ⟨b / 10000000, a / 10000000⟩) ∧
      ((hasDecimalSep (jsTrim x) || hasDecimalSep (jsTrim y)) = false →
        ¬ (1000 ≤ |a| ∨ 1000 ≤ |b|) →
        convertKATECToWGS84 x y = .ok ⟨b, a⟩)) ∧
    convertKATECToWGS84 "1271234567" "371234567" =
      .ok ⟨(37.1234567 : ℚ), (127.1234567 : ℚ)⟩ ∧
    convertKATECToWGS84 "127.1234567" "37.1234567" =
      .ok ⟨(37.1234567 : ℚ), (127.1234567 : ℚ)⟩ := by
  refine ⟨?_, ?_, ?_⟩
  · intro x y a b hx hy ha hb
    refine ⟨?_, ?_, ?_⟩ <;> intro hd
    · simp [convertKATECToWGS84, hx, hy, ha, hb, hd]
    · intro hmag
      simp [convertKATECToWGS84, hx, hy, ha, hb, hd, hmag]
    · intro hmag
      simp [convertKATECToWGS84, hx, hy, ha, hb, hd, hmag]
  · have h1 : parseFloatRep (jsTrim "1271234567") = some (1271234567, 0) := by
      decide
    have h2 : parseFloatRep (jsTrim "371234567") = some (371234567, 0) := by
      decide
    have h3 : hasDecimalSep (jsTrim "1271234567") = false := by decide
    have h4 : hasDecimalSep (jsTrim "371234567") = false := by decide
    simp [convertKATECToWGS84, parseFloat, h1, h2, h3, h4, repVal]
    norm_num
  · have h1 : parseFloatRep (jsTrim "127.1234567") = some (1271234567, 7) := by
      decide
    have h2 : parseFloatRep (jsTrim "37.1234567") = some (371234567, 7) := by
      decide
    have h3 : hasDecimalSep (jsTrim "127.1234567") = true := by decide
    simp [convertKATECToWGS84, parseFloat, h1, h2, h3, repVal]
    norm_num

/-- Witness for C1: the heuristic theorem applied to the concrete decimal
pair ("127.5", "37.5"), whose parse succeeds with nonzero values and whose
strings carry a decimal separator. -/
theorem convertKATEC_heuristic_witness :
    convertKATECToWGS84 "127.5" "37.5" = .ok ⟨(37.5 : ℚ), (127.5 : ℚ)⟩ := by
  have hx : parseFloat (jsTrim "127.5") = some (127.5 : ℚ) := by
    have h : parseFloatRep (jsTrim "127.5") = some (1275, 1) := by decide
    simp [parseFloat, h, repVal]
    norm_num
  have hy : parseFloat (jsTrim "37.5") = some (37.5 : ℚ) := by
    have h : parseFloatRep (jsTrim "37.5") = some (375, 1) := by decide
    simp [parseFloat, h, repVal]
    norm_num
  exact (convertKATEC_heuristic.1 "127.5" "37.5" (127.5 : ℚ) (37.5 : ℚ)
    hx hy (by norm_num) (by norm_num)).1 (by decide)

/-- C4: `normalizeItems` is total (it is a total Lean function, so it never
throws), handles the four accepted shapes as specified (nullish → `[]`,
wrapper → unwrapped array, array → unchanged, single value → one-element
array), degrades the degenerate nullish-item wrapper to `[]`, and is
idempotent: renormalizing its own output changes nothing. -/
theorem normalizeItems_shapes_idempotent {α : Type} :
    (normalizeItems (ItemsVal.nullish (α := α)) = []) ∧
    (normalizeItems (ItemsVal.wrapperNull (α := α)) = []) ∧
    (∀ a : α, normalizeItems (ItemsVal.wrapperSingle a) = [a]) ∧
    (∀ xs : List α, normalizeItems (ItemsVal.wrapperArr xs) = xs) ∧
    (∀ xs : List α, normalizeItems (ItemsVal.arr xs) = xs) ∧
    (∀ a : α, normalizeItems (ItemsVal.single a) = [a]) ∧
    (∀ x : ItemsVal α,
      normalizeItems (ItemsVal.arr (normalizeItems x)) = normalizeItems x) := by
  refine ⟨rfl, rfl, fun _ => rfl, fun _ => rfl, fun _ => rfl, fun _ => rfl, ?_⟩
  intro x
  cases x <;> rfl

/-- C5: `convertKATECToWGS84` fails if and only if either input parses to
NaN or to exactly zero; `resolve("0","0")` and `resolve("abc","37.0")`
both fail, and a coordinate outside the Korean bounding box (latitude
33–43, longitude 124–132) is still returned, not rejected. -/
theorem convertKATEC_fails_iff :
    (∀ x y : String,
      (convertKATECToWGS84 x y).isOk = false ↔
        (parseFloat (jsTrim x) = none ∨ parseFloat (jsTrim y) = none ∨
         parseFloat (jsTrim x) = some 0 ∨ parseFloat (jsTrim y) = some 0)) ∧
    convertKATECToWGS84 "0" "0" = .error .invalidZero ∧
    convertKATECToWGS84 "abc" "37.0" = .error .invalidNaN ∧
    convertKATECToWGS84 "10.0" "20.0" = .ok ⟨(20 : ℚ), (10 : ℚ)⟩ ∧
    isValidKoreanCoordinate 20 10 = false := by
  refine ⟨?_, ?_, ?_, ?_, by decide⟩
  · intro x y
    cases hx : parseFloat (jsTrim x) with
    | none => simp [convertKATECToWGS84, hx, Except.isOk, Except.toBool]
    | some a =>
      cases hy : parseFloat (jsTrim y) with
      | none => simp [convertKATECToWGS84, hx, hy, Except.isOk, Except.toBool]
      | some b =>
        by_cases hz : a = 0 ∨ b = 0
        · simp only [convertKATECToWGS84, hx, hy, if_pos hz]
          simpa [Except.isOk, Except.toBool] using hz
        · have ha : a ≠ 0 := fun h => hz (Or.inl h)
          have hb : b ≠ 0 := fun h => hz (Or.inr h)
          by_cases hd : hasDecimalSep (jsTrim x) = true ∨ hasDecimalSep (jsTrim y) = true
          · simp [convertKATECToWGS84, hx, hy, hz, hd, ha, hb,
              Except.isOk, Except.toBool]
          · by_cases hm : 1000 ≤ |a| ∨ 1000 ≤ |b| <;>
              simp [convertKATECToWGS84, hx, hy, hz, hd, hm, ha, hb,
                Except.isOk, Except.toBool]
  · have h1 : parseFloatRep (jsTrim "0") = some (0, 0) := by decide
    simp [convertKATECToWGS84, parseFloat, h1, repVal]
  · have h1 : parseFloatRep (jsTrim "abc") = none := by decide
    simp [convertKATECToWGS84, parseFloat, h1]
  · have h1 : parseFloatRep (jsTrim "10.0") = some (100, 1) := by decide
    have h2 : parseFloatRep (jsTrim "20.0") = some (200, 1) := by decide
    have h3 : hasDecimalSep (jsTrim "10.0") = true := by decide
    simp [convertKATECToWGS84, parseFloat, h1, h2, h3, repVal]
    norm_num

/-- Witness for C5: the failure characterization applied to the concrete
pair ("0", "37.0"): the first value parses to zero, so the conversion
fails. -/
theorem convertKATEC_fails_iff_witness :
    (convertKATECToWGS84 "0" "37.0").isOk = false := by
  have h1 : parseFloat (jsTrim "0") = some 0 := by
    have h : parseFloatRep (jsTrim "0") = some (0, 0) := by decide
    simp [parseFloat, h, repVal]
  exact (convertKATEC_fails_iff.1 "0" "37.0").2 (Or.inr (Or.inr (Or.inl h1)))

/-- If every attempt fails with the same retryable error, the retry loop
uses all its retries and surfaces that error, inserting one backoff delay
per consumed retry. -/
theorem retryAux_alwaysFail {α : Type} (fn : Nat → Except UpErr α)
    (delays : List Nat) (e : UpErr) (h : ∀ n, fn n = .error e)
    (he : isRetryableError e = true) :
    ∀ remaining attempt, retryAux fn delays attempt remaining =
      ⟨.error (handleApiError e), remaining + 1,
        (List.range remaining).map (fun i => delayFor e (attempt + i) delays)⟩ := by
  intro remaining
  induction remaining with
  | zero => intro attempt; simp [retryAux, h]
  | succ k ih =>
    intro attempt
    have hstep : retryAux fn delays attempt (k + 1) =
        ⟨(retryAux fn delays (attempt + 1) k).result,
         (retryAux fn delays (attempt + 1) k).attempts + 1,
         delayFor e attempt delays :: (retryAux fn delays (attempt + 1) k).waits⟩ := by
      simp [retryAux, h, he]
    rw [hstep, ih (attempt + 1)]
    congr 1
    rw [List.range_succ_eq_map, List.map_cons, List.map_map]
    simp
    intro i _
    have harg : attempt + 1 + i = attempt + (i + 1) := by omega
    rw [harg]

/-- A non-retryable error makes the loop throw on the very attempt it
occurred, with no backoff. -/
theorem retryAux_nonRetryable {α : Type} (fn : Nat → Except UpErr α)
    (delays : List Nat) (e : UpErr) (remaining attempt : Nat)
    (h : fn attempt = .error e) (he : isRetryableError e = false) :
    retryAux fn delays attempt remaining = ⟨.error (handleApiError e), 1, []⟩ := by
  cases remaining with
  | zero => simp [retryAux, h]
  | succ k => simp [retryAux, h, he]

/-- C2: envelope validation by the request executor is tolerant.  A
top-level `resultCode` with no `response` key fails as an upstream error
whose message carries the provider's message and code; a missing (or
nullish) `response` structure fails as the validation error; a response
whose header lacks `resultCode` while a body is present is accepted and
returned unchanged. -/
theorem envelope_validation :
    (∀ (ep code : String) (tm : Option String),
      validateEnvelope (α := TourItem) ep ⟨some code, tm, .absent⟩ =
        .error (.tourApi
          ("API 응답 에러: " ++ jsOrStr tm "알 수 없는 에러" ++
            " (코드: " ++ code ++ ")") none (some ep))) ∧
    (∀ (ep : String) (tm : Option String) (rf : ResponseField TourItem),
      rf = .absent ∨ rf = .null →
      validateEnvelope ep ⟨none, tm, rf⟩ =
        .error (.tourApi "API 응답 구조가 올바르지 않습니다." none (some ep))) ∧
    (∀ (ep : String) (tc tm : Option String) (hdr : Option UpHeader)
      (b : UpBody TourItem),
      hdr.bind (·.resultCode) = none →
      validateEnvelope ep ⟨tc, tm, .present ⟨hdr, some b⟩⟩ =
        .ok ⟨tc, tm, .present ⟨hdr, some b⟩⟩) := by
  refine ⟨?_, ?_, ?_⟩
  · intro ep code tm
    simp [validateEnvelope, ResponseField.isAbsent]
  · rintro ep tm rf (rfl | rfl) <;>
      simp [validateEnvelope, ResponseField.isAbsent]
  · intro ep tc tm hdr b h
    simp [validateEnvelope, ResponseField.isAbsent, UpData.resultCode, h]

/-- Witness for C2: a concrete envelope whose header is present but lacks
`resultCode`, with a populated body, is accepted unchanged. -/
theorem envelope_validation_witness :
    validateEnvelope "/areaBasedList2"
        (UpData.mk none none (.present ⟨some ⟨none, some "OK"⟩,
          some ⟨.arr [TourItem.mk "1"], some 10, some 1, some 1⟩⟩)) =
      .ok (UpData.mk none none (.present ⟨some ⟨none, some "OK"⟩,
          some ⟨.arr [TourItem.mk "1"], some 10, some 1, some 1⟩⟩)) :=
  envelope_validation.2.2 "/areaBasedList2" none none (some ⟨none, some "OK"⟩)
    ⟨.arr [TourItem.mk "1"], some 10, some 1, some 1⟩ rfl

/-- C3: when every attempt fails with a simulated HTTP 500, the request
executor makes 4 attempts (3 retries) and then surfaces the final error;
when every attempt fails with a simulated HTTP 400 it makes a single
attempt (0 retries) and fails immediately. -/
theorem retry_simulated_500_400 :
    (∀ (fn : Nat → Except UpErr Unit) (m : String) (ep : Option String),
      (∀ n, fn n = .error (.tourApi m (some 500) ep)) →
      retryRequest fn MAX_RETRIES RETRY_DELAYS =
        ⟨.error (.tourApi m (some 500) ep), 4, [1000, 2000, 4000]⟩) ∧
    (∀ (fn : Nat → Except UpErr Unit) (m : String) (ep : Option String),
      (∀ n, fn n = .error (.tourApi m (some 400) ep)) →
      retryRequest fn MAX_RETRIES RETRY_DELAYS =
        ⟨.error (.tourApi m (some 400) ep), 1, []⟩) := by
  constructor
  · intro fn m ep h
    rw [retryRequest, MAX_RETRIES,
      retryAux_alwaysFail fn RETRY_DELAYS (.tourApi m (some 500) ep) h rfl 3 0]
    rw [show List.range 3 = [0, 1, 2] from rfl]
    simp [handleApiError, delayFor, isRateLimited, jsIndexOrLast, RETRY_DELAYS]
  · intro fn m ep h
    rw [retryRequest, MAX_RETRIES,
      retryAux_nonRetryable fn RETRY_DELAYS (.tourApi m (some 400) ep) 3 0
        (h 0) rfl]
    simp [handleApiError]

/-- Witness for C3: the concrete always-500 and always-400 request
functions produce exactly 4 and 1 attempts respectively. -/
theorem retry_simulated_500_400_witness :
    retryRequest (α := Unit) (fun _ => .error (.tourApi "API 요청 실패: 500" (some 500) none))
        MAX_RETRIES RETRY_DELAYS =
      ⟨.error (.tourApi "API 요청 실패: 500" (some 500) none), 4,
        [1000, 2000, 4000]⟩ ∧
    retryRequest (α := Unit) (fun _ => .error (.tourApi "API 요청 실패: 400" (some 400) none))
        MAX_RETRIES RETRY_DELAYS =
      ⟨.error (.tourApi "API 요청 실패: 400" (some 400) none), 1, []⟩ :=
  ⟨retry_simulated_500_400.1 _ "API 요청 실패: 500" none (fun _ => rfl),
   retry_simulated_500_400.2 _ "API 요청 실패: 400" none (fun _ => rfl)⟩

/-- C6: the backoff delays inserted before retries 0, 1, 2 are 1000, 2000,
4000 ms for an ordinary retryable error, and 5000, 10000, 15000 ms when the
failing attempts signalled rate-limiting (HTTP 429). -/
theorem retry_backoff_schedules :
    (∀ (fn : Nat → Except UpErr Unit) (e : UpErr),
      (∀ n, fn n = .error e) → isRetryableError e = true →
      isRateLimited e = false →
      (retryRequest fn MAX_RETRIES RETRY_DELAYS).waits = [1000, 2000, 4000]) ∧
    (∀ (fn : Nat → Except UpErr Unit) (m : String) (ep : Option String),
      (∀ n, fn n = .error (.tourApi m (some 429) ep)) →
      (retryRequest fn MAX_RETRIES RETRY_DELAYS).waits =
        [5000, 10000, 15000]) := by
  constructor
  · intro fn e h he hrl
    rw [retryRequest, MAX_RETRIES, retryAux_alwaysFail fn RETRY_DELAYS e h he 3 0]
    rw [show List.range 3 = [0, 1, 2] from rfl]
    simp [delayFor, hrl, jsIndexOrLast, RETRY_DELAYS]
  · intro fn m ep h
    rw [retryRequest, MAX_RETRIES,
      retryAux_alwaysFail fn RETRY_DELAYS (.tourApi m (some 429) ep) h rfl 3 0]
    rw [show List.range 3 = [0, 1, 2] from rfl]
    simp [delayFor, isRateLimited, jsIndexOrLast, rateLimitDelays]

/-- Witness for C6: concrete always-network-error and always-429 request
functions produce the ordinary and rate-limited backoff schedules. -/
theorem retry_backoff_schedules_witness :
    (retryRequest (α := Unit) (fun _ => .error (.jsError "fetch failed"))
        MAX_RETRIES RETRY_DELAYS).waits = [1000, 2000, 4000] ∧
    (retryRequest (α := Unit)
        (fun _ => .error (.tourApi "API 요청 실패: 429" (some 429) none))
        MAX_RETRIES RETRY_DELAYS).waits = [5000, 10000, 15000] :=
  ⟨retry_backoff_schedules.1 _ (.jsError "fetch failed") (fun _ => rfl) rfl rfl,
   retry_backoff_schedules.2 _ "API 요청 실패: 429" none (fun _ => rfl)⟩

/-- `jsOrNat` with a positive default is positive. -/
theorem jsOrNat_pos (o : Option Nat) (d : Nat) (hd : 0 < d) : 0 < jsOrNat o d := by
  cases o with
  | none => simpa [jsOrNat]
  | some n =>
    by_cases h : n = 0
    · simpa [jsOrNat, h]
    · simpa [jsOrNat, h] using Nat.pos_of_ne_zero h

/-- Ceiling of a quotient of naturals equals `Nat` ceiling division. -/
theorem ceil_natCast_div (a n : Nat) (hn : 0 < n) :
    ⌈(a : ℚ) / (n : ℚ)⌉ = ((a ⌈/⌉ n : Nat) : ℤ) := by
  have hnQ : (0 : ℚ) < (n : ℚ) := by exact_mod_cast hn
  rw [Nat.ceilDiv_eq_add_pred_div]
  have hdm := Nat.div_add_mod (a + n - 1) n
  have hr := Nat.mod_lt (a + n - 1) hn
  set q := (a + n - 1) / n with hq
  have h1 : a ≤ n * q := by omega
  have h2 : n * q ≤ a + n - 1 := by omega
  have h2' : (n : ℚ) * q ≤ (a : ℚ) + n - 1 := by
    have : ((n * q : Nat) : ℚ) ≤ ((a + n - 1 : Nat) : ℚ) := by exact_mod_cast h2
    rw [Nat.cast_sub (by omega)] at this
    push_cast at this ⊢
    linarith
  have h1' : (a : ℚ) ≤ (n : ℚ) * q := by exact_mod_cast h1
  rw [Int.ceil_eq_iff]
  constructor
  · push_cast
    rw [lt_div_iff hnQ]
    nlinarith [h2']
  · push_cast
    rw [div_le_iff hnQ]
    nlinarith [h1']

/-- The pagination record always carries a positive page size and a
`totalPages` equal to the ceiling of `totalCount / numOfRows`. -/
theorem buildPagedResponse_ceil {α : Type} (items : List α)
    (body : Option (UpBody α)) (pn pp : Option Nat) :
    0 < (buildPagedResponse items body pn pp).numOfRows ∧
    ((buildPagedResponse items body pn pp).totalPages : ℤ) =
      ⌈((buildPagedResponse items body pn pp).totalCount : ℚ) /
        ((buildPagedResponse items body pn pp).numOfRows : ℚ)⌉ := by
  have hpos : 0 < jsOrNat (body.bind (·.numOfRows)) (jsOrNat pn 12) :=
    jsOrNat_pos _ _ (jsOrNat_pos _ _ (by norm_num))
  refine ⟨hpos, ?_⟩
  simp only [buildPagedResponse]
  exact Int.toNat_of_nonneg (Int.ceil_nonneg (by positivity))

/-- C7 (amended): every `PagedResult` returned by `getAreaBasedList` and
`searchKeyword` satisfies `totalPages = ⌈totalCount / numOfRows⌉` with a
positive `numOfRows`.  The claim's second invariant,
`items.length ≤ numOfRows`, is not enforced by the code (see the
counterexample `pagedResult_item_count_cex`). -/
theorem pagedResult_totalPages_ceil :
    (∀ (p : AreaBasedParams) (b : Option (UpBody TourItem))
      (r : PagedResponse TourItem),
      getAreaBasedList p b = .ok r →
      0 < r.numOfRows ∧
      (r.totalPages : ℤ) = ⌈(r.totalCount : ℚ) / (r.numOfRows : ℚ)⌉) ∧
    (∀ (p : SearchParams) (b : Option (UpBody TourItem))
      (r : PagedResponse TourItem),
      searchKeyword p b = .ok r →
      0 < r.numOfRows ∧
      (r.totalPages : ℤ) = ⌈(r.totalCount : ℚ) / (r.numOfRows : ℚ)⌉) := by
  constructor
  · intro p b r hr
    rw [getAreaBasedList] at hr
    split at hr
    · exact absurd hr (by simp)
    · obtain rfl := (Except.ok.inj hr).symm
      exact buildPagedResponse_ceil _ b p.numOfRows p.pageNo
  · intro p b r hr
    rw [searchKeyword] at hr
    split at hr
    · exact absurd hr (by simp)
    · obtain rfl := (Except.ok.inj hr).symm
      exact buildPagedResponse_ceil _ b p.numOfRows p.pageNo

/-- Witness for C7 (amended): a concrete search response with 25 total
results at 10 per page yields 3 total pages. -/
theorem pagedResult_totalPages_ceil_witness :
    (0 < (3 : Nat)) ∧ ((3 : Nat) : ℤ) = ⌈((25 : Nat) : ℚ) / ((10 : Nat) : ℚ)⌉ := by
  have hr : searchKeyword ⟨"경복궁", some 10, some 1⟩
      (some ⟨.arr [], some 10, some 1, some 25⟩) =
      .ok ⟨[], 25, 10, 1, 3⟩ := by
    rw [searchKeyword]
    rw [if_neg (by simp [jsTrim])]
    simp only [normalizeItems, buildPagedResponse, jsOrNat]
    norm_num
    have hceil : ⌈(5 / 2 : ℚ)⌉ = 3 := by
      rw [Int.ceil_eq_iff]
      norm_num
    rw [hceil]
    rfl
  have h := pagedResult_totalPages_ceil.2 ⟨"경복궁", some 10, some 1⟩
    (some ⟨.arr [], some 10, some 1, some 25⟩) ⟨[], 25, 10, 1, 3⟩ hr
  simpa using h

/-- C7 (counterexample): the upstream may return more items than
`numOfRows`; `getAreaBasedList` accepts such a body and returns a
`PagedResult` with `items.length = 2 > numOfRows = 1`, so
`items.length ≤ numOfRows` does not hold. -/
theorem pagedResult_item_count_cex :
    getAreaBasedList ⟨"1", "12", none, none⟩
        (some ⟨.arr [⟨"a"⟩, ⟨"b"⟩], some 1, some 1, some 2⟩) =
      .ok ⟨[⟨"a"⟩, ⟨"b"⟩], 2, 1, 1, 2⟩ ∧
    ¬ ((2 : Nat) ≤ (1 : Nat)) := by
  refine ⟨?_, by omega⟩
  rw [getAreaBasedList]
  rw [if_neg (by simp)]
  simp only [preUnwrapItems, normalizeItems, buildPagedResponse, jsOrNat]
  norm_num
  rfl

/-- Image normalisation does not change the entity id. -/
theorem normalizeDetailImages_contentid (d : TourDetail) :
    (normalizeDetailImages d).contentid = d.contentid := by
  unfold normalizeDetailImages
  by_cases h1 : d.firstimage = some "" <;>
    by_cases h2 : d.firstimage2 = some "" <;>
      simp [h1, h2]

/-- Primary-image backfill does not change the entity id. -/
theorem backfillPrimary_contentid (d : TourDetail) (imgs : List TourImage) :
    (backfillPrimary d imgs).contentid = d.contentid := by
  unfold backfillPrimary
  by_cases h : ¬ isValidImageUrl d.firstimage ∧ 0 < imgs.length
  · rw [if_pos h]
    cases hf : imgs.find? (fun img => isValidImageUrl img.originimgurl) with
    | none => rfl
    | some img =>
      cases hu : img.originimgurl with
      | none => simp [hu]
      | some url => by_cases hne : url = "" <;> simp [hu, hne]
  · rw [if_neg h]

/-- Secondary-image backfill does not change the entity id. -/
theorem backfillSecondary_contentid (d : TourDetail) (imgs : List TourImage) :
    (backfillSecondary d imgs).contentid = d.contentid := by
  unfold backfillSecondary
  by_cases h : ¬ isValidImageUrl d.firstimage2 ∧ 1 < imgs.length
  · rw [if_pos h]
    cases hf : (imgs.drop 1).find? (fun img => isValidImageUrl img.originimgurl) with
    | none => rfl
    | some img =>
      cases hu : img.originimgurl with
      | none => simp [hu]
      | some url => by_cases hne : url = "" <;> simp [hu, hne]
  · rw [if_neg h]

/-- The whole optional-image step does not change the entity id. -/
theorem detailAfterImages_contentid (d : TourDetail)
    (im : Except UpErr (List TourImage)) :
    (detailAfterImages d im).contentid = d.contentid := by
  cases im with
  | ok imgs =>
    simp [detailAfterImages, backfillImages, backfillSecondary_contentid,
      backfillPrimary_contentid]
  | error e => rfl

/-- C8: the detail aggregation returns a populated result whenever the
required common-info fetch succeeds; a failure of the required fetch
propagates as-is; when every optional sub-fetch fails the result still
succeeds with operating info, images, pet policy and recommendations all
empty/absent; and each optional component is independent of the other
optional fetches (a failure of one never affects the others). -/
theorem detail_aggregation :
    (∀ (f : DetailFetches) (d : TourDetail),
      f.common = .ok d → (TourDetailData f).isOk = true) ∧
    (∀ (f : DetailFetches) (e : UpErr),
      f.common = .error e → TourDetailData f = .error e) ∧
    (∀ (d : TourDetail) (e1 e2 e3 e4 : UpErr),
      TourDetailData ⟨.ok d, .error e1, .error e2, .error e3, .error e4⟩ =
        .ok ⟨normalizeDetailImages d, none, [], none, []⟩) ∧
    (∀ (d : TourDetail) (i : Except UpErr TourIntro)
      (im im' : Except UpErr (List TourImage))
      (p p' : Except UpErr (Option PetTourInfo))
      (r r' : Except UpErr (PagedResponse TourItem)),
      (TourDetailData ⟨.ok d, i, im, p, r⟩).map (·.intro) =
        (TourDetailData ⟨.ok d, i, im', p', r'⟩).map (·.intro)) ∧
    (∀ (d : TourDetail) (i i' : Except UpErr TourIntro)
      (im im' : Except UpErr (List TourImage))
      (p : Except UpErr (Option PetTourInfo))
      (r r' : Except UpErr (PagedResponse TourItem)),
      (TourDetailData ⟨.ok d, i, im, p, r⟩).map (·.petInfo) =
        (TourDetailData ⟨.ok d, i', im', p, r'⟩).map (·.petInfo)) ∧
    (∀ (d : TourDetail) (i i' : Except UpErr TourIntro)
      (im im' : Except UpErr (List TourImage))
      (p p' : Except UpErr (Option PetTourInfo))
      (r : Except UpErr (PagedResponse TourItem)),
      (TourDetailData ⟨.ok d, i, im, p, r⟩).map (·.recommendations) =
        (TourDetailData ⟨.ok d, i', im', p', r⟩).map (·.recommendations)) := by
  refine ⟨?_, ?_, ?_, ?_, ?_, ?_⟩
  · intro f d h
    cases f with
    | mk common intro images pet recs =>
      cases h
      simp [TourDetailData, Except.isOk, Except.toBool]
  · intro f e h
    cases f with
    | mk common intro images pet recs =>
      cases h
      simp [TourDetailData]
  · intro d e1 e2 e3 e4
    rfl
  · intro d i im im' p p' r r'
    simp [TourDetailData, Except.map]
  · intro d i i' im im' p r r'
    simp [TourDetailData, Except.map]
  · intro d i i' im im' p p' r
    simp only [TourDetailData, Except.map]
    rw [detailAfterImages_contentid, detailAfterImages_contentid]

/-- Witness for C8: a concrete run in which the required fetch succeeds and
every optional fetch fails yields a populated detail with empty optional
data. -/
theorem detail_aggregation_witness :
    TourDetailData
        ⟨.ok ⟨"125266", "12", some "1", some "", none⟩,
         .error (.tourApi "intro down" none none),
         .error (.tourApi "images down" none none),
         .error (.tourApi "pet down" none none),
         .error (.tourApi "recs down" none none)⟩ =
      .ok ⟨⟨"125266", "12", some "1", none, none⟩, none, [], none, []⟩ := by
  rw [detail_aggregation.2.2.1 ⟨"125266", "12", some "1", some "", none⟩
    (.tourApi "intro down" none none) (.tourApi "images down" none none)
    (.tourApi "pet down" none none) (.tourApi "recs down" none none)]
  rfl

/-- Rounding to two decimals moves a value by at most 1/200. -/
theorem abs_roundTo2_sub (q : ℚ) : |roundTo2 q - q| ≤ 1 / 200 := by
  unfold roundTo2
  have h := abs_sub_round (q * 100)
  rw [abs_sub_comm] at h
  have heq : (round (q * 100) : ℚ) / 100 - q =
      ((round (q * 100) : ℚ) - q * 100) / 100 := by ring
  rw [heq, abs_div, abs_of_pos (by norm_num : (0 : ℚ) < 100)]
  linarith

/-- Rounding each element of a list to two decimals moves the sum by at
most `length / 200`. -/
theorem abs_sum_roundTo2_sub (l : List ℚ) :
    |(l.map roundTo2).sum - l.sum| ≤ (l.length : ℚ) / 200 := by
  induction l with
  | nil => simp
  | cons x xs ih =>
    simp only [List.map_cons, List.sum_cons, List.length_cons]
    have h1 := abs_roundTo2_sub x
    calc |roundTo2 x + (xs.map roundTo2).sum - (x + xs.sum)|
        = |(roundTo2 x - x) + ((xs.map roundTo2).sum - xs.sum)| := by ring_nf
      _ ≤ |roundTo2 x - x| + |(xs.map roundTo2).sum - xs.sum| := abs_add _ _
      _ ≤ 1 / 200 + (xs.length : ℚ) / 200 := add_le_add h1 ih
      _ = ((xs.length : ℚ) + 1) / 200 := by ring
      _ = (((xs.length + 1 : Nat)) : ℚ) / 200 := by push_cast; ring

/-- Multiplying each element by a constant multiplies the sum. -/
theorem sum_map_mul_const (l : List ℚ) (k : ℚ) :
    (l.map (fun c => c * k)).sum = l.sum * k := by
  induction l with
  | nil => simp
  | cons x xs ih => simp [ih, add_mul]

/-- Stable descending insertion produces a permutation. -/
theorem insertByCountDesc_perm {α : Type} (count : α → Nat) (x : α)
    (l : List α) : (insertByCountDesc count x l).Perm (x :: l) := by
  induction l with
  | nil => exact List.Perm.refl _
  | cons y ys ih =>
    unfold insertByCountDesc
    by_cases h : count y < count x
    · rw [if_pos h]
    · rw [if_neg h]
      exact (ih.cons y).trans (List.Perm.swap x y ys)

/-- The descending sort is a permutation of its input. -/
theorem sortByCountDesc_perm {α : Type} (count : α → Nat) (l : List α) :
    (sortByCountDesc count l).Perm l := by
  induction l with
  | nil => exact List.Perm.refl _
  | cons x xs ih =>
    exact (insertByCountDesc_perm count x _).trans (ih.cons x)

/-- C9: `calculatePercentage` is `count / total * 100` rounded to two
decimals, and 0 when the total is 0 (no division by zero); consequently
the percentages of the partitions returned by `getTypeStatsInternal` sum
to 100 within ±0.1 whenever at least one partition fetch succeeds with a
nonzero count. -/
theorem percentage_rounding_and_sum :
    (∀ c t : ℚ, calculatePercentage c 0 = 0 ∧
      (t ≠ 0 → calculatePercentage c t = roundTo2 (c / t * 100))) ∧
    (∀ fetch : String → Option Nat,
      (∃ id ∈ CONTENT_TYPE_IDS, ∃ c, fetch id = some c ∧ 0 < c) →
      |((getTypeStatsInternal fetch).map (·.percentage)).sum - 100| ≤ 1 / 10) := by
  constructor
  · intro c t
    exact ⟨by simp [calculatePercentage], fun ht => by simp [calculatePercentage, ht]⟩
  · intro fetch h
    obtain ⟨id, hid, c, hc, hcpos⟩ := h
    simp only [getTypeStatsInternal]
    set results := CONTENT_TYPE_IDS.filterMap
      (fun id => (fetch id).map (fun c => (id, c))) with hres
    set valid := results.filter (fun p => 0 < p.2) with hvalid
    have hmem : (id, c) ∈ results := by
      rw [hres]
      exact List.mem_filterMap.mpr ⟨id, hid, by simp [hc]⟩
    have hmemv : (id, c) ∈ valid := by
      rw [hvalid]
      exact List.mem_filter.mpr ⟨hmem, by simpa using hcpos⟩
    have hneBool : valid.isEmpty = false := by
      cases hv : valid with
      | nil => rw [hv] at hmemv; cases hmemv
      | cons a as => simp [hv]
    rw [if_neg (by simp [hneBool])]
    set total := (valid.map (·.2)).sum with htot
    have hcle : c ≤ total := by
      rw [htot]
      exact List.single_le_sum (fun x _ => Nat.zero_le x) c
        (List.mem_map.mpr ⟨(id, c), hmemv, rfl⟩)
    have htotpos : 0 < total := lt_of_lt_of_le hcpos hcle
    have htotQ : ((total : ℚ)) ≠ 0 := by
      exact_mod_cast Nat.pos_iff_ne_zero.mp htotpos
    -- the percentages of the sorted output sum like those of the unsorted list
    set stats := valid.map (fun p =>
      TypeStats.mk p.1 (getContentTypeName p.1) p.2
        (calculatePercentage (p.2 : ℚ) (total : ℚ))) with hstats
    have hperm : ((sortByCountDesc TypeStats.count stats).map (·.percentage)).sum
        = (stats.map (·.percentage)).sum :=
      ((sortByCountDesc_perm TypeStats.count stats).map (·.percentage)).sum_eq
    rw [hperm, hstats, List.map_map]
    have hcomp : ((fun s : TypeStats => s.percentage) ∘ (fun p : String × Nat =>
        TypeStats.mk p.1 (getContentTypeName p.1) p.2
          (calculatePercentage (p.2 : ℚ) (total : ℚ)))) =
        fun p : String × Nat => roundTo2 ((p.2 : ℚ) / (total : ℚ) * 100) := by
      funext p
      simp [Function.comp, calculatePercentage, htotQ]
    rw [hcomp]
    -- rewrite as roundTo2 over the list of exact shares
    have hmm : valid.map (fun p : String × Nat =>
        roundTo2 ((p.2 : ℚ) / (total : ℚ) * 100)) =
        (valid.map (fun p : String × Nat =>
          (p.2 : ℚ) / (total : ℚ) * 100)).map roundTo2 := by
      rw [List.map_map]
      rfl
    rw [hmm]
    set exacts := valid.map (fun p : String × Nat =>
      (p.2 : ℚ) / (total : ℚ) * 100) with hexacts
    have hexsum : exacts.sum = 100 := by
      have h1 : exacts = (valid.map (fun p : String × Nat => (p.2 : ℚ))).map
          (fun x => x * (100 / (total : ℚ))) := by
        rw [hexacts, List.map_map]
        refine List.map_congr_left ?_
        intro p _
        simp only [Function.comp]
        field_simp
      have h2 : (valid.map (fun p : String × Nat => (p.2 : ℚ))).sum
          = (total : ℚ) := by
        rw [htot]
        have : valid.map (fun p : String × Nat => (p.2 : ℚ)) =
            (valid.map (·.2)).map (fun n : Nat => (n : ℚ)) := by
          rw [List.map_map]; rfl
        rw [this, ← Nat.cast_list_sum]
      rw [h1, sum_map_mul_const, h2]
      field_simp
    rw [← hexsum]
    have hlen : exacts.length ≤ 8 := by
      rw [hexacts, List.length_map, hvalid]
      calc (results.filter (fun p => 0 < p.2)).length
          ≤ results.length := List.length_filter_le _ _
        _ ≤ CONTENT_TYPE_IDS.length := by
            rw [hres]; exact List.length_filterMap_le _ _
        _ = 8 := rfl
    calc |(exacts.map roundTo2).sum - exacts.sum|
        ≤ (exacts.length : ℚ) / 200 := abs_sum_roundTo2_sub exacts
      _ ≤ (8 : ℚ) / 200 := by
          have : (exacts.length : ℚ) ≤ 8 := by exact_mod_cast hlen
          linarith
      _ ≤ 1 / 10 := by norm_num

/-- The concrete partition oracle used to witness C9: content types 12 and
14 report counts 1 and 2, every other partition call fails. -/
def fetchWitness : String → Option Nat :=
  fun id => if id = "12" then some 1 else if id = "14" then some 2 else none

/-- Witness for C9: the sum property applied to `fetchWitness`, whose
partition "12" succeeds with the nonzero count 1. -/
theorem percentage_rounding_and_sum_witness :
    |((getTypeStatsInternal fetchWitness).map (·.percentage)).sum - 100| ≤ 1 / 10 :=
  percentage_rounding_and_sum.2 fetchWitness
    ⟨"12", by decide, 1, rfl, by decide⟩

/-- C10: the statistics aggregators drop not only failed partitions but
every partition whose count is 0: region and content-type entries with a
zero count never appear in the returned arrays (and therefore contribute
nothing to the totals and percentages, which are computed from the
filtered lists only). -/
theorem stats_exclude_zero_counts :
    (∀ (areas : List AreaCodeItem) (fetch : String → Option Nat)
      (s : RegionStats),
      s ∈ getRegionStatsInternal areas fetch → 0 < s.count) ∧
    (∀ (fetch : String → Option Nat) (s : TypeStats),
      s ∈ getTypeStatsInternal fetch → 0 < s.count) := by
  constructor
  · intro areas fetch s hs
    unfold getRegionStatsInternal at hs
    by_cases he : areas.isEmpty
    · rw [if_pos he] at hs
      cases hs
    · rw [if_neg he] at hs
      have hv := (sortByCountDesc_perm RegionStats.count _).mem_iff.mp hs
      have := List.mem_filter.mp hv
      simpa using this.2
  · intro fetch s hs
    unfold getTypeStatsInternal at hs
    by_cases he : (((CONTENT_TYPE_IDS.filterMap
        (fun id => (fetch id).map (fun c => (id, c)))).filter
          (fun p => 0 < p.2)).isEmpty : Bool)
    · rw [if_pos he] at hs
      cases hs
    · rw [if_neg he] at hs
      have hv := (sortByCountDesc_perm TypeStats.count _).mem_iff.mp hs
      obtain ⟨p, hp, rfl⟩ := List.mem_map.mp hv
      have := List.mem_filter.mp hp
      simpa using this.2

/-- Witness for C10: on a concrete area list and count oracle the region
aggregator returns the single region with its positive count, and the
theorem certifies that count is positive. -/
theorem stats_exclude_zero_counts_witness :
    0 < (RegionStats.mk "1" "서울" 5).count :=
  stats_exclude_zero_counts.1 [⟨some "1", some "서울"⟩] (fun _ => some 5)
    (RegionStats.mk "1" "서울" 5) (by decide)

end MapTest
